import Mathlib

/-!
# Verification of the glog date-rotating writer

Shallow embedding of the `DateRotator` from the glog repository: a
time-bucketed rotating file writer with retention cleanup.

Filesystem effects (closing, opening, removing files, reading the log
directory) and the clock are modelled as explicit oracle inputs; file
handles are natural numbers; Go `time.Time` values and nanosecond
timestamps are integers; Go's truncated `%` on `int64` is `Int.tmod`.
The time-format pattern semantics (`time.Time.Format` / `time.Parse`)
are abstracted as function parameters `fmtTime : Int → String` and
`parseTime : String → Except String Int`.
-/

namespace Glog

/-- Nanoseconds in 24 hours: `(24 * time.Hour).Nanoseconds()`. -/
def dayNs : Int := 86400000000000

/-- The mutable state of a `DateRotator` (the fields read or written by
`Write`, `getFileHandler`, `Close` and `cleanRunOnce`; the mutex and the
raw format string are not part of the mathematical state). -/
structure DateRotator where
  timeDiffToUTC : Int
  lastTime : Int
  period : Int
  maxAge : Int
  logPath : String
  filename : String
  outFile : Option Nat
  ext : String
deriving Repr, DecidableEq

/-- The state `NewDateRotator` builds (zero-valued `lastTime`, `filename`,
`outFile`; `period` fixed at 24 hours; the captured zone offset, retention
horizon, resolved directory and extension as given). -/
def mkDateRotator (offsetNs maxAge : Int) (logPath ext : String) : DateRotator :=
  { timeDiffToUTC := offsetNs
    lastTime := 0
    period := dayNs
    maxAge := maxAge
    logPath := logPath
    filename := ""
    outFile := none
    ext := ext }

/-- Filesystem actions `getFileHandler` / `Close` can perform, recorded so
that "does not touch the filesystem" is statable. -/
inductive FsOp where
  | closeF (h : Nat) : FsOp
  | openF (name : String) : FsOp
  | sweep : FsOp
deriving Repr, DecidableEq

/-- Computes `current := nowUnixNano - ((nowUnixNano + tw.timeDiffToUTC) % tw.period)`,
the start of the current offset-adjusted bucket. -/
def bucketStart (tw : DateRotator) (nowUnixNano : Int) : Int :=
  nowUnixNano - (nowUnixNano + tw.timeDiffToUTC).tmod tw.period

/-- The Go error string of the guard `if fh == nil` in `Write`. The guard
compares the returned `io.Writer` interface value with nil; the stay paths
of `getFileHandler` return the `*os.File` field boxed into that interface,
which is a non-nil interface even when the pointer itself is nil, so the
guard never fires and this error is never produced. -/
def closedWriterError : String := "target io.Writer is closed"

/-- The Go error string of `os.ErrInvalid`, which `(*os.File).Write`
returns (with zero bytes) when invoked on a nil receiver. -/
def invalidArgumentError : String := "invalid argument"

/-- The close action rotation performs when a handle is present. -/
def closeOpsOf (o : Option Nat) : List FsOp :=
  match o with
  | some h => [FsOp.closeF h]
  | none => []

/-- The rotation decision `getFileHandler`. `closeRes` is the oracle
outcome of `outFile.Close()` (when attempted) and `openRes` that of
`os.OpenFile` (when attempted). Returns the Go results
`(io.Writer, error)` as an `Except`, the state after the call, and the
filesystem actions performed. -/
def getFileHandler (fmtTime : Int → String) (tw : DateRotator) (nowUnixNano : Int)
    (closeRes : Option String) (openRes : Except String Nat) :
    Except String (Option Nat) × DateRotator × List FsOp :=
  let current := bucketStart tw nowUnixNano
  if current - tw.lastTime < tw.period then
    (Except.ok tw.outFile, tw, [])
  else
    let logfile := fmtTime current ++ tw.ext
    if tw.filename = logfile then
      (Except.ok tw.outFile, tw, [])
    else
      match tw.outFile, closeRes with
      | some h, some e => (Except.error e, tw, [FsOp.closeF h])
      | _, _ =>
        match openRes with
        | Except.error e =>
          (Except.error ("failed to open file " ++ tw.logPath ++ "/" ++ logfile ++ ": " ++ e),
            tw, closeOpsOf tw.outFile ++ [FsOp.openF logfile])
        | Except.ok fh =>
          (Except.ok (some fh),
            { tw with outFile := some fh, filename := logfile, lastTime := current },
            closeOpsOf tw.outFile ++ [FsOp.openF logfile, FsOp.sweep])

/-- The `Write` method: resolve the handle via `getFileHandler`; an error is
returned with zero bytes. When the stay path hands back a nil stored
pointer, the boxed `io.Writer` interface is still non-nil, so the
`if fh == nil` guard (which would return `closedWriterError`) does not
fire; the call proceeds into `(*os.File).Write` on a nil receiver, which
returns zero bytes and `os.ErrInvalid`. With a real handle the underlying
`fh.Write(p)` result (`writeRes`, an oracle) is returned verbatim. -/
def WriteOp (fmtTime : Int → String) (tw : DateRotator) (nowUnixNano : Int)
    (closeRes : Option String) (openRes : Except String Nat)
    (writeRes : Nat × Option String) :
    (Nat × Option String) × DateRotator × List FsOp :=
  match getFileHandler fmtTime tw nowUnixNano closeRes openRes with
  | (Except.error e, tw2, ops) => ((0, some e), tw2, ops)
  | (Except.ok none, tw2, ops) => ((0, some invalidArgumentError), tw2, ops)
  | (Except.ok (some _), tw2, ops) => (writeRes, tw2, ops)

/-- The `Close` method: close the active handle if present; a close error is returned
before the handle field is cleared, so on error `outFile` is unchanged. -/
def CloseOp (tw : DateRotator) (closeRes : Option String) :
    Option String × DateRotator × List FsOp :=
  match tw.outFile with
  | none => (none, tw, [])
  | some h =>
    match closeRes with
    | some e => (some e, tw, [FsOp.closeF h])
    | none => (none, { tw with outFile := none }, [FsOp.closeF h])

/-! ## Case lemmas for the rotation decision -/

theorem getFileHandler_same_bucket (fmtTime : Int → String) (tw : DateRotator)
    (now : Int) (closeRes : Option String) (openRes : Except String Nat)
    (h : bucketStart tw now - tw.lastTime < tw.period) :
    getFileHandler fmtTime tw now closeRes openRes = (Except.ok tw.outFile, tw, []) := by
  unfold getFileHandler
  simp [h]

theorem getFileHandler_same_name (fmtTime : Int → String) (tw : DateRotator)
    (now : Int) (closeRes : Option String) (openRes : Except String Nat)
    (hrot : ¬ bucketStart tw now - tw.lastTime < tw.period)
    (hn : tw.filename = fmtTime (bucketStart tw now) ++ tw.ext) :
    getFileHandler fmtTime tw now closeRes openRes = (Except.ok tw.outFile, tw, []) := by
  unfold getFileHandler
  simp [hrot, hn]

theorem getFileHandler_close_fail (fmtTime : Int → String) (tw : DateRotator)
    (now : Int) (e : String) (openRes : Except String Nat) (h : Nat)
    (hrot : ¬ bucketStart tw now - tw.lastTime < tw.period)
    (hn : tw.filename ≠ fmtTime (bucketStart tw now) ++ tw.ext)
    (hout : tw.outFile = some h) :
    getFileHandler fmtTime tw now (some e) openRes
      = (Except.error e, tw, [FsOp.closeF h]) := by
  unfold getFileHandler
  simp [hrot, hn, hout]

theorem getFileHandler_open_fail (fmtTime : Int → String) (tw : DateRotator)
    (now : Int) (closeRes : Option String) (e : String)
    (hrot : ¬ bucketStart tw now - tw.lastTime < tw.period)
    (hn : tw.filename ≠ fmtTime (bucketStart tw now) ++ tw.ext)
    (hclose : tw.outFile = none ∨ closeRes = none) :
    getFileHandler fmtTime tw now closeRes (Except.error e)
      = (Except.error ("failed to open file " ++ tw.logPath ++ "/"
            ++ (fmtTime (bucketStart tw now) ++ tw.ext) ++ ": " ++ e),
          tw, closeOpsOf tw.outFile ++ [FsOp.openF (fmtTime (bucketStart tw now) ++ tw.ext)]) := by
  unfold getFileHandler
  rcases hclose with hc | hc
  · simp [hrot, hn, hc, closeOpsOf]
  · subst hc
    cases hout : tw.outFile <;> simp [hrot, hn, hout, closeOpsOf]

theorem getFileHandler_rotate (fmtTime : Int → String) (tw : DateRotator)
    (now : Int) (closeRes : Option String) (fh : Nat)
    (hrot : ¬ bucketStart tw now - tw.lastTime < tw.period)
    (hn : tw.filename ≠ fmtTime (bucketStart tw now) ++ tw.ext)
    (hclose : tw.outFile = none ∨ closeRes = none) :
    getFileHandler fmtTime tw now closeRes (Except.ok fh)
      = (Except.ok (some fh),
          { tw with outFile := some fh, filename := fmtTime (bucketStart tw now) ++ tw.ext, lastTime := bucketStart tw now },
          closeOpsOf tw.outFile
            ++ [FsOp.openF (fmtTime (bucketStart tw now) ++ tw.ext), FsOp.sweep]) := by
  unfold getFileHandler
  rcases hclose with hc | hc
  · simp [hrot, hn, hc, closeOpsOf]
  · subst hc
    cases hout : tw.outFile <;> simp [hrot, hn, hout, closeOpsOf]

/-- The state component of a `Write` is the state `getFileHandler` leaves. -/
theorem writeOp_state (fmtTime : Int → String) (tw : DateRotator) (now : Int)
    (closeRes : Option String) (openRes : Except String Nat)
    (writeRes : Nat × Option String) :
    (WriteOp fmtTime tw now closeRes openRes writeRes).2
      = (getFileHandler fmtTime tw now closeRes openRes).2 := by
  unfold WriteOp
  rcases hg : getFileHandler fmtTime tw now closeRes openRes with ⟨r, tw2, ops⟩
  rcases r with e | o
  · rfl
  · cases o <;> rfl

/-- A nil handle surviving the rotation decision yields the nil-receiver
write result: zero bytes and the invalid-argument error. -/
theorem writeOp_nil_handle (fmtTime : Int → String) (tw : DateRotator) (now : Int)
    (closeRes : Option String) (openRes : Except String Nat)
    (writeRes : Nat × Option String)
    (h0 : tw.outFile = none)
    (hstay : bucketStart tw now - tw.lastTime < tw.period ∨
      tw.filename = fmtTime (bucketStart tw now) ++ tw.ext) :
    WriteOp fmtTime tw now closeRes openRes writeRes
      = ((0, some invalidArgumentError), tw, []) := by
  have hg : getFileHandler fmtTime tw now closeRes openRes = (Except.ok tw.outFile, tw, []) := by
    rcases hstay with h | h
    · exact getFileHandler_same_bucket fmtTime tw now closeRes openRes h
    · by_cases hrot : bucketStart tw now - tw.lastTime < tw.period
      · exact getFileHandler_same_bucket fmtTime tw now closeRes openRes hrot
      · exact getFileHandler_same_name fmtTime tw now closeRes openRes hrot h
  unfold WriteOp
  rw [hg, h0]

/-- C1: within the current bucket `getFileHandler` is the identity on the
state, performs no filesystem action, and hands back the existing handle;
hence a `Write` under those conditions is the bare underlying write. -/
theorem write_same_bucket_reuses_handle (fmtTime : Int → String) (tw : DateRotator)
    (nowUnixNano : Int) (closeRes : Option String) (openRes : Except String Nat)
    (writeRes : Nat × Option String)
    (hsame : bucketStart tw nowUnixNano - tw.lastTime < tw.period) :
    getFileHandler fmtTime tw nowUnixNano closeRes openRes = (Except.ok tw.outFile, tw, []) ∧
    (∀ h : Nat, tw.outFile = some h →
      WriteOp fmtTime tw nowUnixNano closeRes openRes writeRes = (writeRes, tw, [])) := by
  have hg : getFileHandler fmtTime tw nowUnixNano closeRes openRes
      = (Except.ok tw.outFile, tw, []) := by
    unfold getFileHandler
    simp [hsame]
  refine ⟨hg, ?_⟩
  intro h hh
  unfold WriteOp
  rw [hg, hh]

/-- Witness for C1 at a concrete in-bucket call. -/
theorem write_same_bucket_reuses_handle_witness :
    getFileHandler (fun t => "f" ++ toString t)
        { timeDiffToUTC := 0, lastTime := 86400000000000, period := 86400000000000,
          maxAge := 0, logPath := "logs", filename := "f86400000000000.log",
          outFile := some 3, ext := ".log" }
        100000000000000 none (Except.ok 9)
      = (Except.ok (some 3),
          { timeDiffToUTC := 0, lastTime := 86400000000000, period := 86400000000000,
            maxAge := 0, logPath := "logs", filename := "f86400000000000.log",
            outFile := some 3, ext := ".log" }, []) ∧
    WriteOp (fun t => "f" ++ toString t)
        { timeDiffToUTC := 0, lastTime := 86400000000000, period := 86400000000000,
          maxAge := 0, logPath := "logs", filename := "f86400000000000.log",
          outFile := some 3, ext := ".log" }
        100000000000000 none (Except.ok 9) (5, none)
      = ((5, none),
          { timeDiffToUTC := 0, lastTime := 86400000000000, period := 86400000000000,
            maxAge := 0, logPath := "logs", filename := "f86400000000000.log",
            outFile := some 3, ext := ".log" }, []) := by
  have h := write_same_bucket_reuses_handle (fun t => "f" ++ toString t)
    { timeDiffToUTC := 0, lastTime := 86400000000000, period := 86400000000000,
      maxAge := 0, logPath := "logs", filename := "f86400000000000.log",
      outFile := some 3, ext := ".log" }
    100000000000000 none (Except.ok 9) (5, none) (by decide)
  exact ⟨h.1, h.2 3 rfl⟩

/-! ## Write after Close (C2, C9) -/

/-- A successful `Close` always leaves `outFile` nil. -/
theorem closeOp_ok_outFile (tw : DateRotator) : ((CloseOp tw none).2.1).outFile = none := by
  unfold CloseOp
  cases h : tw.outFile <;> simp [h]

/-- A concrete time-formatting function for witnesses: distinct timestamps
get distinct names. -/
def fmtF : Int → String := fun t => "f" ++ toString t

/-- A concrete rotator state holding handle 1 for the file of bucket 0. -/
def twHeld : DateRotator :=
  { timeDiffToUTC := 0, lastTime := 0, period := 86400000000000, maxAge := 0,
    logPath := "logs", filename := "f0.log", outFile := some 1, ext := ".log" }

/-- C2 counterexample: after a successful `Close` of `twHeld`, a `Write`
falling in the next bucket rotates to a fresh file and returns the
underlying write's result (5 bytes, no error), not the closed-writer
error with zero bytes. -/
theorem write_after_close_succeeds_cex :
    ((WriteOp fmtF (CloseOp twHeld none).2.1 86400000000000 none
        (Except.ok 2) (5, none)).1 = (5, none)) ∧
    ((5 : Nat), (none : Option String)) ≠ ((0 : Nat), some closedWriterError) := by
  constructor
  · rfl
  · simp

/-- C2 (amended): a Write after a successful Close reports zero bytes with
an error and leaves the state untouched whenever the rotation decision
does not open a new file (the computed bucket start is still within one
period of `lastTime`, or the candidate filename equals the recorded one) —
but the error is the invalid-argument error of the nil `*os.File`
receiver, never the closed-writer error, whose interface-nil guard does
not fire on the boxed nil pointer; a Write that rotates to a new name
instead reopens and can succeed. -/
theorem write_after_close_invalid_argument (fmtTime : Int → String)
    (tw : DateRotator) (now : Int) (closeRes : Option String)
    (openRes : Except String Nat) (writeRes : Nat × Option String)
    (hstay : bucketStart (CloseOp tw none).2.1 now - ((CloseOp tw none).2.1).lastTime
        < ((CloseOp tw none).2.1).period ∨
      ((CloseOp tw none).2.1).filename
        = fmtTime (bucketStart (CloseOp tw none).2.1 now) ++ ((CloseOp tw none).2.1).ext) :
    WriteOp fmtTime (CloseOp tw none).2.1 now closeRes openRes writeRes
      = ((0, some invalidArgumentError), (CloseOp tw none).2.1, []) ∧
    invalidArgumentError ≠ closedWriterError :=
  ⟨writeOp_nil_handle fmtTime (CloseOp tw none).2.1 now closeRes openRes writeRes
      (closeOp_ok_outFile tw) hstay,
   by decide⟩

/-- Witness for the amended C2: a same-bucket Write right after Close. -/
theorem write_after_close_invalid_argument_witness :
    WriteOp fmtF (CloseOp twHeld none).2.1 100 none (Except.ok 2) (5, none)
      = ((0, some invalidArgumentError), (CloseOp twHeld none).2.1, []) ∧
    invalidArgumentError ≠ closedWriterError :=
  write_after_close_invalid_argument fmtF twHeld 100 none (Except.ok 2) (5, none)
    (Or.inl (by decide))

/-- A rotator state with no open handle, in bucket 0. -/
def twClosed : DateRotator :=
  { timeDiffToUTC := 0, lastTime := 0, period := 86400000000000, maxAge := 0,
    logPath := "logs", filename := "f0.log", outFile := none, ext := ".log" }

/-- C9 counterexample: a post-Close Write in the same bucket returns zero
bytes with the invalid-argument error of the nil `*os.File` receiver, not
the closed-writer error — the claimed closed-writer error does not occur
even in the case the claim reserves for it. -/
theorem nil_handle_invalid_argument_cex :
    (WriteOp fmtF twClosed 100 none (Except.ok 2) (5, none)).1
      = (0, some invalidArgumentError) ∧
    some invalidArgumentError ≠ some closedWriterError := by
  exact ⟨rfl, by decide⟩

/-- C9 (amended): with no handle (e.g. after Close), a Write whose bucket
start is a full period beyond `lastTime` and whose formatted name differs
from the recorded one opens the new bucket file and returns the underlying
write's result; when instead the rotation decision leaves the handle nil
(same bucket, or identical formatted name) the Write returns zero bytes
with the nil-receiver invalid-argument error — the closed-writer error is
never returned. -/
theorem write_after_close_rotates_or_invalid_argument (fmtTime : Int → String) (tw : DateRotator)
    (now : Int) (closeRes : Option String) (fh : Nat) (writeRes : Nat × Option String)
    (h0 : tw.outFile = none) :
    (tw.period ≤ bucketStart tw now - tw.lastTime →
      fmtTime (bucketStart tw now) ++ tw.ext ≠ tw.filename →
      WriteOp fmtTime tw now closeRes (Except.ok fh) writeRes
        = (writeRes,
            { tw with outFile := some fh, filename := fmtTime (bucketStart tw now) ++ tw.ext, lastTime := bucketStart tw now },
            [FsOp.openF (fmtTime (bucketStart tw now) ++ tw.ext), FsOp.sweep])) ∧
    ((bucketStart tw now - tw.lastTime < tw.period ∨
      fmtTime (bucketStart tw now) ++ tw.ext = tw.filename) →
      WriteOp fmtTime tw now closeRes (Except.ok fh) writeRes
        = ((0, some invalidArgumentError), tw, [])) := by
  constructor
  · intro hge hname
    have hrot : ¬ bucketStart tw now - tw.lastTime < tw.period := not_lt.mpr hge
    have hg := getFileHandler_rotate fmtTime tw now closeRes fh hrot (Ne.symm hname) (Or.inl h0)
    unfold WriteOp
    rw [hg]
    simp [h0, closeOpsOf]
  · intro hstay
    exact writeOp_nil_handle fmtTime tw now closeRes (Except.ok fh) writeRes h0
      (hstay.imp id Eq.symm)

/-- Witness for the amended C9: both branches at concrete post-Close states. -/
theorem write_after_close_rotates_or_invalid_argument_witness :
    (WriteOp fmtF twClosed 86400000000000 none (Except.ok 2) (5, none)
      = ((5, none),
          { twClosed with outFile := some 2, filename := fmtF (bucketStart twClosed 86400000000000) ++ twClosed.ext, lastTime := bucketStart twClosed 86400000000000 },
          [FsOp.openF (fmtF (bucketStart twClosed 86400000000000) ++ twClosed.ext), FsOp.sweep])) ∧
    (WriteOp fmtF twClosed 100 none (Except.ok 2) (5, none)
      = ((0, some invalidArgumentError), twClosed, [])) :=
  ⟨(write_after_close_rotates_or_invalid_argument fmtF twClosed 86400000000000 none 2 (5, none) rfl).1
      (by decide) (by decide),
   (write_after_close_rotates_or_invalid_argument fmtF twClosed 100 none 2 (5, none) rfl).2
      (Or.inl (by decide))⟩

/-! ## Rotation failure paths (C3, C4) -/

/-- C3 counterexample: rotation out of `twHeld` (handle 1 open) whose close
succeeds but whose open fails leaves `outFile` still holding the old
handle — the writer is not "left with no active handle". -/
theorem open_fail_stale_handle_cex :
    ((getFileHandler fmtF twHeld 86400000000000 none (Except.error "disk full")).2.1).outFile
        = some 1 ∧
    (some 1 : Option Nat) ≠ none := by
  constructor
  · rfl
  · simp

/-- C3 (amended): if the open fails during rotation, the Write-side error
is the file-open error naming the path and cause, and the whole recorded
state — `lastTime`, `filename` and also the `outFile` field — is left
unmodified (so when no handle was open before, none remains and the next
Write attempts to open the very same bucket file again). -/
theorem open_fail_error_and_retry (fmtTime : Int → String) (tw : DateRotator)
    (now : Int) (e : String) (closeRes : Option String)
    (hrot : ¬ bucketStart tw now - tw.lastTime < tw.period)
    (hn : tw.filename ≠ fmtTime (bucketStart tw now) ++ tw.ext)
    (hclose : tw.outFile = none ∨ closeRes = none) :
    getFileHandler fmtTime tw now closeRes (Except.error e)
      = (Except.error ("failed to open file " ++ tw.logPath ++ "/"
            ++ (fmtTime (bucketStart tw now) ++ tw.ext) ++ ": " ++ e),
          tw, closeOpsOf tw.outFile ++ [FsOp.openF (fmtTime (bucketStart tw now) ++ tw.ext)]) ∧
    (∀ fh : Nat, (getFileHandler fmtTime tw now closeRes (Except.ok fh)).2.2
      = closeOpsOf tw.outFile ++ [FsOp.openF (fmtTime (bucketStart tw now) ++ tw.ext), FsOp.sweep]) := by
  refine ⟨getFileHandler_open_fail fmtTime tw now closeRes e hrot hn hclose, ?_⟩
  intro fh
  rw [getFileHandler_rotate fmtTime tw now closeRes fh hrot hn hclose]

/-- Witness for the amended C3: first-ever rotation with a failing open. -/
theorem open_fail_error_and_retry_witness :
    (getFileHandler fmtF
        { timeDiffToUTC := 0, lastTime := 0, period := 86400000000000, maxAge := 0,
          logPath := "logs", filename := "", outFile := none, ext := ".log" }
        86400000000000 none (Except.error "disk full")
      = (Except.error ("failed to open file " ++ "logs" ++ "/"
            ++ (fmtF (bucketStart
                { timeDiffToUTC := 0, lastTime := 0, period := 86400000000000, maxAge := 0,
                  logPath := "logs", filename := "", outFile := none, ext := ".log" }
                86400000000000) ++ ".log") ++ ": " ++ "disk full"),
          { timeDiffToUTC := 0, lastTime := 0, period := 86400000000000, maxAge := 0,
            logPath := "logs", filename := "", outFile := none, ext := ".log" },
          closeOpsOf none ++ [FsOp.openF (fmtF (bucketStart
                { timeDiffToUTC := 0, lastTime := 0, period := 86400000000000, maxAge := 0,
                  logPath := "logs", filename := "", outFile := none, ext := ".log" }
                86400000000000) ++ ".log")])) ∧
    (∀ fh : Nat, (getFileHandler fmtF
        { timeDiffToUTC := 0, lastTime := 0, period := 86400000000000, maxAge := 0,
          logPath := "logs", filename := "", outFile := none, ext := ".log" }
        86400000000000 none (Except.ok fh)).2.2
      = closeOpsOf none ++ [FsOp.openF (fmtF (bucketStart
            { timeDiffToUTC := 0, lastTime := 0, period := 86400000000000, maxAge := 0,
              logPath := "logs", filename := "", outFile := none, ext := ".log" }
            86400000000000) ++ ".log"), FsOp.sweep]) :=
  open_fail_error_and_retry fmtF
    { timeDiffToUTC := 0, lastTime := 0, period := 86400000000000, maxAge := 0,
      logPath := "logs", filename := "", outFile := none, ext := ".log" }
    86400000000000 "disk full" none (by decide) (by decide) (Or.inl rfl)

/-- C4 counterexample: a failing close during rotation out of `twHeld`
leaves `outFile` still holding handle 1 — the writer is not left with a
nil handle. -/
theorem close_fail_handle_kept_cex :
    ((getFileHandler fmtF twHeld 86400000000000 (some "close failed")
        (Except.ok 2)).2.1).outFile = some 1 ∧
    (some 1 : Option Nat) ≠ none := by
  constructor
  · rfl
  · simp

/-- C4 (amended): a close error during rotation aborts the rotation (no
open is attempted, no sweep is launched) and is surfaced to the Write
caller, and the writer's state — including the `outFile` field, which
still holds the old handle — is left unchanged. -/
theorem close_fail_aborts_rotation (fmtTime : Int → String) (tw : DateRotator)
    (now : Int) (e : String) (openRes : Except String Nat) (h : Nat)
    (hrot : ¬ bucketStart tw now - tw.lastTime < tw.period)
    (hn : tw.filename ≠ fmtTime (bucketStart tw now) ++ tw.ext)
    (hout : tw.outFile = some h) :
    getFileHandler fmtTime tw now (some e) openRes = (Except.error e, tw, [FsOp.closeF h]) ∧
    (∀ writeRes : Nat × Option String,
      WriteOp fmtTime tw now (some e) openRes writeRes = ((0, some e), tw, [FsOp.closeF h])) := by
  have hg := getFileHandler_close_fail fmtTime tw now e openRes h hrot hn hout
  refine ⟨hg, ?_⟩
  intro writeRes
  unfold WriteOp
  rw [hg]

/-- Witness for the amended C4 at `twHeld`. -/
theorem close_fail_aborts_rotation_witness :
    getFileHandler fmtF twHeld 86400000000000 (some "close failed") (Except.ok 2)
      = (Except.error "close failed", twHeld, [FsOp.closeF 1]) ∧
    (∀ writeRes : Nat × Option String,
      WriteOp fmtF twHeld 86400000000000 (some "close failed") (Except.ok 2) writeRes
        = ((0, some "close failed"), twHeld, [FsOp.closeF 1])) :=
  close_fail_aborts_rotation fmtF twHeld 86400000000000 "close failed" (Except.ok 2) 1
    (by decide) (by decide) rfl

/-! ## Reachability (C5, C10) -/

/-- One mutation of the rotator state: a `Write` call (with arbitrary
clock and filesystem oracle outcomes) or a `Close` call. -/
inductive Step (fmtTime : Int → String) : DateRotator → DateRotator → Prop where
  | write (tw : DateRotator) (now : Int) (closeRes : Option String)
      (openRes : Except String Nat) (writeRes : Nat × Option String) :
      Step fmtTime tw (WriteOp fmtTime tw now closeRes openRes writeRes).2.1
  | close (tw : DateRotator) (closeRes : Option String) :
      Step fmtTime tw (CloseOp tw closeRes).2.1

/-- States reachable from `init` by any sequence of Write/Close calls. -/
def Reachable (fmtTime : Int → String) (init tw : DateRotator) : Prop :=
  Relation.ReflTransGen (Step fmtTime) init tw

/-- The function `getFileHandler` either leaves the state alone or installs a freshly
opened handle together with the matching filename and bucket start. -/
theorem getFileHandler_state_shape (fmtTime : Int → String) (tw : DateRotator)
    (now : Int) (closeRes : Option String) (openRes : Except String Nat) :
    (getFileHandler fmtTime tw now closeRes openRes).2.1 = tw ∨
    (∃ fh : Nat, tw.period ≤ bucketStart tw now - tw.lastTime ∧
      (getFileHandler fmtTime tw now closeRes openRes).2.1
        = { tw with outFile := some fh, filename := fmtTime (bucketStart tw now) ++ tw.ext, lastTime := bucketStart tw now }) := by
  by_cases hrot : bucketStart tw now - tw.lastTime < tw.period
  · left
    rw [getFileHandler_same_bucket fmtTime tw now closeRes openRes hrot]
  · by_cases hn : tw.filename = fmtTime (bucketStart tw now) ++ tw.ext
    · left
      rw [getFileHandler_same_name fmtTime tw now closeRes openRes hrot hn]
    · have hsplit : (∃ h e, tw.outFile = some h ∧ closeRes = some e) ∨
          tw.outFile = none ∨ closeRes = none := by
        cases h : tw.outFile with
        | none => exact Or.inr (Or.inl rfl)
        | some hh =>
          cases e : closeRes with
          | none => exact Or.inr (Or.inr rfl)
          | some ee => exact Or.inl ⟨hh, ee, rfl, rfl⟩
      rcases hsplit with ⟨h, e, hout, hcr⟩ | hc
      · left
        rw [hcr, getFileHandler_close_fail fmtTime tw now e openRes h hrot hn hout]
      · cases openRes with
        | error e =>
          left
          rw [getFileHandler_open_fail fmtTime tw now closeRes e hrot hn hc]
        | ok fh =>
          right
          exact ⟨fh, not_lt.mp hrot,
            by rw [getFileHandler_rotate fmtTime tw now closeRes fh hrot hn hc]⟩

/-- A `Close` call either leaves the state alone or only clears the handle. -/
theorem closeOp_state_shape (tw : DateRotator) (closeRes : Option String) :
    (CloseOp tw closeRes).2.1 = tw ∨ (CloseOp tw closeRes).2.1 = { tw with outFile := none } := by
  unfold CloseOp
  cases h : tw.outFile with
  | none => left; simp [h]
  | some hh =>
    cases closeRes with
    | none => right; simp [h]
    | some e => left; simp [h]

theorem sub_tmod_tmod (a p : Int) : (a - a.tmod p).tmod p = 0 := by
  have h : a - a.tmod p = p * a.tdiv p := by
    have := Int.tdiv_add_tmod a p
    linarith
  rw [h, Int.mul_tmod_right]

/-- A computed bucket start is aligned: shifting it by the captured offset
and reducing modulo the period gives zero. -/
theorem bucketStart_aligned (tw : DateRotator) (now : Int) :
    (bucketStart tw now + tw.timeDiffToUTC).tmod tw.period = 0 := by
  have h : bucketStart tw now + tw.timeDiffToUTC
      = (now + tw.timeDiffToUTC) - (now + tw.timeDiffToUTC).tmod tw.period := by
    unfold bucketStart
    ring
  rw [h, sub_tmod_tmod]

/-- The C5 invariant: a non-nil handle is recorded together with the
filename formatted from the recorded bucket start plus the extension,
and that bucket start is period-aligned. -/
def HandleNameInv (fmtTime : Int → String) (tw : DateRotator) : Prop :=
  ∀ h : Nat, tw.outFile = some h →
    tw.filename = fmtTime tw.lastTime ++ tw.ext ∧
    (tw.lastTime + tw.timeDiffToUTC).tmod tw.period = 0

theorem step_preserves_inv (fmtTime : Int → String) {tw tw' : DateRotator}
    (hs : Step fmtTime tw tw') (hi : HandleNameInv fmtTime tw) :
    HandleNameInv fmtTime tw' := by
  cases hs with
  | write now closeRes openRes writeRes =>
    have hst : (WriteOp fmtTime tw now closeRes openRes writeRes).2.1
        = (getFileHandler fmtTime tw now closeRes openRes).2.1 :=
      congrArg Prod.fst (writeOp_state fmtTime tw now closeRes openRes writeRes)
    rw [hst]
    rcases getFileHandler_state_shape fmtTime tw now closeRes openRes with hsh | ⟨fh, _, hsh⟩
    · rw [hsh]; exact hi
    · rw [hsh]
      intro h hh
      exact ⟨rfl, bucketStart_aligned tw now⟩
  | close closeRes =>
    rcases closeOp_state_shape tw closeRes with hsh | hsh
    · rw [hsh]; exact hi
    · rw [hsh]
      intro h hh
      simp at hh

/-- Every reachable state satisfies the handle/name invariant. -/
theorem reachable_handleNameInv (fmtTime : Int → String) (offsetNs maxAge : Int)
    (logPath ext : String) (tw : DateRotator)
    (hr : Reachable fmtTime (mkDateRotator offsetNs maxAge logPath ext) tw) :
    HandleNameInv fmtTime tw := by
  induction hr with
  | refl =>
    intro h hh
    simp [mkDateRotator] at hh
  | tail hab hbc ih => exact step_preserves_inv fmtTime hbc ih

/-- C5: in every state reachable from a freshly constructed rotator, a
non-nil handle comes with a filename equal to the formatted recorded
bucket start plus the extension, and that bucket start is aligned to the
offset-adjusted period grid. -/
theorem handle_matches_bucket_name (fmtTime : Int → String) (offsetNs maxAge : Int)
    (logPath ext : String) (tw : DateRotator)
    (hr : Reachable fmtTime (mkDateRotator offsetNs maxAge logPath ext) tw)
    (h : Nat) (hh : tw.outFile = some h) :
    tw.filename = fmtTime tw.lastTime ++ tw.ext ∧
    (tw.lastTime + tw.timeDiffToUTC).tmod tw.period = 0 :=
  reachable_handleNameInv fmtTime offsetNs maxAge logPath ext tw hr h hh

/-- Witness for C5: one successful rotating Write from a fresh rotator. -/
theorem handle_matches_bucket_name_witness :
    ((WriteOp fmtF (mkDateRotator 0 0 "logs" ".log") 86400000000000 none (Except.ok 7) (3, none)).2.1).filename
      = fmtF ((WriteOp fmtF (mkDateRotator 0 0 "logs" ".log") 86400000000000 none (Except.ok 7) (3, none)).2.1).lastTime
        ++ ((WriteOp fmtF (mkDateRotator 0 0 "logs" ".log") 86400000000000 none (Except.ok 7) (3, none)).2.1).ext ∧
    (((WriteOp fmtF (mkDateRotator 0 0 "logs" ".log") 86400000000000 none (Except.ok 7) (3, none)).2.1).lastTime
        + ((WriteOp fmtF (mkDateRotator 0 0 "logs" ".log") 86400000000000 none (Except.ok 7) (3, none)).2.1).timeDiffToUTC).tmod
      ((WriteOp fmtF (mkDateRotator 0 0 "logs" ".log") 86400000000000 none (Except.ok 7) (3, none)).2.1).period = 0 :=
  handle_matches_bucket_name fmtF 0 0 "logs" ".log" _
    (Relation.ReflTransGen.single
      (Step.write (mkDateRotator 0 0 "logs" ".log") 86400000000000 none (Except.ok 7) (3, none)))
    7 (by decide)

theorem step_period_eq (fmtTime : Int → String) {tw tw' : DateRotator}
    (hs : Step fmtTime tw tw') : tw'.period = tw.period := by
  cases hs with
  | write now closeRes openRes writeRes =>
    have hst : (WriteOp fmtTime tw now closeRes openRes writeRes).2.1
        = (getFileHandler fmtTime tw now closeRes openRes).2.1 :=
      congrArg Prod.fst (writeOp_state fmtTime tw now closeRes openRes writeRes)
    rw [hst]
    rcases getFileHandler_state_shape fmtTime tw now closeRes openRes with hsh | ⟨fh, _, hsh⟩ <;>
      rw [hsh]
  | close closeRes =>
    rcases closeOp_state_shape tw closeRes with hsh | hsh <;> rw [hsh]

/-- The period field is construction-time constant. -/
theorem reachable_period_eq (fmtTime : Int → String) (init tw : DateRotator)
    (hr : Reachable fmtTime init tw) : tw.period = init.period := by
  induction hr with
  | refl => rfl
  | tail hab hbc ih => rw [step_period_eq fmtTime hbc, ih]

theorem step_lastTime_mono (fmtTime : Int → String) {tw tw' : DateRotator}
    (hs : Step fmtTime tw tw') (hp : 0 < tw.period) :
    tw.lastTime ≤ tw'.lastTime := by
  cases hs with
  | write now closeRes openRes writeRes =>
    have hst : (WriteOp fmtTime tw now closeRes openRes writeRes).2.1
        = (getFileHandler fmtTime tw now closeRes openRes).2.1 :=
      congrArg Prod.fst (writeOp_state fmtTime tw now closeRes openRes writeRes)
    rw [hst]
    rcases getFileHandler_state_shape fmtTime tw now closeRes openRes with hsh | ⟨fh, hge, hsh⟩
    · rw [hsh]
    · rw [hsh]
      show tw.lastTime ≤ bucketStart tw now
      linarith
  | close closeRes =>
    rcases closeOp_state_shape tw closeRes with hsh | hsh <;> rw [hsh]

/-- C10: the recorded bucket start never decreases over any sequence of
Write and Close calls from a constructed rotator, whatever the clock and
filesystem oracles do — rotation only ever advances it by at least one
full (positive) period. -/
theorem lastTime_monotone (fmtTime : Int → String) (init tw tw' : DateRotator)
    (hp : 0 < init.period)
    (h1 : Reachable fmtTime init tw)
    (h2 : Relation.ReflTransGen (Step fmtTime) tw tw') :
    tw.lastTime ≤ tw'.lastTime := by
  have hper : tw.period = init.period := reachable_period_eq fmtTime init tw h1
  have key : ∀ b : DateRotator, Relation.ReflTransGen (Step fmtTime) tw b →
      tw.lastTime ≤ b.lastTime ∧ b.period = tw.period := by
    intro b hb
    induction hb with
    | refl => exact ⟨le_rfl, rfl⟩
    | tail hab hbc ih =>
      refine ⟨le_trans ih.1 (step_lastTime_mono fmtTime hbc ?_),
        (step_period_eq fmtTime hbc).trans ih.2⟩
      rw [ih.2, hper]
      exact hp
  exact (key tw' h2).1

/-- Witness for C10: a rotating Write strictly advances `lastTime`. -/
theorem lastTime_monotone_witness :
    (mkDateRotator 0 0 "logs" ".log").lastTime
      ≤ ((WriteOp fmtF (mkDateRotator 0 0 "logs" ".log") 86400000000000 none (Except.ok 7) (3, none)).2.1).lastTime :=
  lastTime_monotone fmtF (mkDateRotator 0 0 "logs" ".log") (mkDateRotator 0 0 "logs" ".log") _
    (by decide) Relation.ReflTransGen.refl
    (Relation.ReflTransGen.single
      (Step.write (mkDateRotator 0 0 "logs" ".log") 86400000000000 none (Except.ok 7) (3, none)))

/-! ## Retention sweeper (C6, C7, C8) -/

/-- A directory entry as `os.ReadDir` yields it; `infoOk` models whether
`entry.Info()` succeeds. -/
structure DirEntry where
  name : String
  isDir : Bool
  infoOk : Bool
deriving Repr, DecidableEq

/-- The `logInfo` record: a parsed timestamp paired with the entry's file name (the
only piece of the `os.FileInfo` the sweep uses). -/
structure LogInfo where
  timestamp : Int
  name : String
deriving Repr, DecidableEq

/-- The `timeFromName` helper: strip the extension suffix and parse the rest with the
configured pattern (`parseTime` abstracts `time.Parse`). The suffix test
and slice of the Go code are taken on the character list of the name. -/
def timeFromName (parseTime : String → Except String Int) (ext filename : String) :
    Except String Int :=
  if List.isSuffixOf ext.data filename.data then
    parseTime (String.mk (filename.data.take (filename.data.length - ext.data.length)))
  else Except.error "mismatched extension"

/-- The entry loop of `oldLogFiles`: skip directories, entries that do not
parse, and entries whose `Info()` fails. -/
def collectLogs (parseTime : String → Except String Int) (ext : String) :
    List DirEntry → List LogInfo
  | [] => []
  | entry :: rest =>
    if entry.isDir then collectLogs parseTime ext rest
    else
      match timeFromName parseTime ext entry.name with
      | Except.ok t =>
        if entry.infoOk then
          { timestamp := t, name := entry.name } :: collectLogs parseTime ext rest
        else collectLogs parseTime ext rest
      | Except.error _ => collectLogs parseTime ext rest

/-- Insertion step of `sort.Sort(byFormatTime ...)`: most recent first. -/
def insertByTime (x : LogInfo) : List LogInfo → List LogInfo
  | [] => [x]
  | y :: ys => if y.timestamp < x.timestamp then x :: y :: ys else y :: insertByTime x ys

/-- Sorting by parsed timestamp, descending (`Less i j = b[i].After(b[j])`). -/
def sortByTimeDesc : List LogInfo → List LogInfo
  | [] => []
  | x :: xs => insertByTime x (sortByTimeDesc xs)

/-- The `oldLogFiles` scan on the entries the directory-read oracle returned. -/
def oldLogFiles (parseTime : String → Except String Int) (ext : String)
    (entries : List DirEntry) : List LogInfo :=
  sortByTimeDesc (collectLogs parseTime ext entries)

/-- Outcome of one `cleanRunOnce` pass: the returned error, whether the
directory was read, and the candidates whose removal was attempted. -/
structure SweepResult where
  err : Option String
  dirRead : Bool
  removed : List LogInfo
deriving Repr, DecidableEq

/-- The sweep `cleanRunOnce`: no-op on `maxAge == 0`; read the directory (its
failure is returned); for positive `maxAge` collect every record strictly
before `now - 24h*maxAge`; remove each candidate, keeping the first
removal error (`if err == nil && errRemove != nil`). -/
def cleanRunOnce (parseTime : String → Except String Int) (tw : DateRotator)
    (nowLocal : Int) (readDirRes : Except String (List DirEntry))
    (removeRes : String → Option String) : SweepResult :=
  if tw.maxAge = 0 then { err := none, dirRead := false, removed := [] }
  else
    match readDirRes with
    | Except.error e =>
      { err := some ("can't read log file directory: " ++ e), dirRead := true, removed := [] }
    | Except.ok entries =>
      let files := oldLogFiles parseTime tw.ext entries
      let remove :=
        if 0 < tw.maxAge then
          files.filter (fun f => f.timestamp < nowLocal - dayNs * tw.maxAge)
        else []
      { err := remove.foldl (fun acc f =>
            match acc, removeRes f.name with
            | none, some e => some e
            | acc, _ => acc) none,
        dirRead := true,
        removed := remove }

theorem mem_insertByTime (x y : LogInfo) (l : List LogInfo) :
    y ∈ insertByTime x l ↔ y = x ∨ y ∈ l := by
  induction l with
  | nil => simp [insertByTime]
  | cons z zs ih =>
    unfold insertByTime
    by_cases h : z.timestamp < x.timestamp
    · simp [h]
    · simp only [h, if_false, List.mem_cons, ih]
      tauto

theorem mem_sortByTimeDesc (y : LogInfo) (l : List LogInfo) :
    y ∈ sortByTimeDesc l ↔ y ∈ l := by
  induction l with
  | nil => simp [sortByTimeDesc]
  | cons x xs ih => simp [sortByTimeDesc, mem_insertByTime, ih]

/-- C6 (amended): with a positive horizon and a readable directory, one
sweep attempts to delete exactly the parseable, non-directory records
whose timestamps are *strictly* before `now - 24h*maxAge`; a record dated
exactly `maxAge` days before now is preserved. -/
theorem sweep_removes_exactly_strictly_old (parseTime : String → Except String Int)
    (tw : DateRotator) (nowLocal : Int) (entries : List DirEntry)
    (removeRes : String → Option String) (hage : 0 < tw.maxAge) (f : LogInfo) :
    f ∈ (cleanRunOnce parseTime tw nowLocal (Except.ok entries) removeRes).removed ↔
      f ∈ oldLogFiles parseTime tw.ext entries ∧ f.timestamp < nowLocal - dayNs * tw.maxAge := by
  unfold cleanRunOnce
  simp [hage.ne', hage, List.mem_filter]

/-- Witness for the amended C6: with horizon 1 and now one day plus 10ns,
the file at timestamp 2 (strictly inside the horizon... strictly before
the cutoff 10) is a removal candidate. -/
theorem sweep_removes_exactly_strictly_old_witness :
    (⟨2, "a.log"⟩ : LogInfo) ∈ (cleanRunOnce
        (fun s => if s = "a" then Except.ok 2 else Except.error "bad")
        { timeDiffToUTC := 0, lastTime := 0, period := 86400000000000, maxAge := 1,
          logPath := "logs", filename := "", outFile := none, ext := ".log" }
        86400000000010
        (Except.ok [{ name := "a.log", isDir := false, infoOk := true }])
        (fun _ => none)).removed ↔
      (⟨2, "a.log"⟩ : LogInfo) ∈ oldLogFiles
        (fun s => if s = "a" then Except.ok 2 else Except.error "bad") ".log"
        [{ name := "a.log", isDir := false, infoOk := true }] ∧
      (2 : Int) < 86400000000010 - dayNs * 1 :=
  sweep_removes_exactly_strictly_old
    (fun s => if s = "a" then Except.ok 2 else Except.error "bad")
    { timeDiffToUTC := 0, lastTime := 0, period := 86400000000000, maxAge := 1,
      logPath := "logs", filename := "", outFile := none, ext := ".log" }
    86400000000010
    [{ name := "a.log", isDir := false, infoOk := true }]
    (fun _ => none) (by decide) ⟨2, "a.log"⟩

/-- C6 counterexample: a parseable file dated exactly `maxAge` days before
now (timestamp equal to the cutoff) is not deleted: the sweep's removal
list is empty, though the claim says it is deleted. -/
theorem boundary_file_preserved_cex :
    timeFromName (fun s => if s = "f0" then Except.ok 0 else Except.error "bad")
        ".log" "f0.log" = Except.ok 0 ∧
    (86400000000000 : Int) - dayNs * 1 = 0 ∧
    (cleanRunOnce (fun s => if s = "f0" then Except.ok 0 else Except.error "bad")
        { timeDiffToUTC := 0, lastTime := 0, period := 86400000000000, maxAge := 1,
          logPath := "logs", filename := "", outFile := none, ext := ".log" }
        86400000000000
        (Except.ok [{ name := "f0.log", isDir := false, infoOk := true }])
        (fun _ => none)).removed = [] := by
  refine ⟨rfl, by decide, rfl⟩

theorem foldl_first_some (g : LogInfo → Option String) (l : List LogInfo) (v : String) :
    l.foldl (fun acc f =>
        match acc, g f with
        | none, some e => some e
        | acc, _ => acc) (some v) = some v := by
  induction l with
  | nil => rfl
  | cons x xs ih =>
    rw [List.foldl_cons]
    cases hgx : g x <;> simpa [hgx] using ih

theorem foldl_first_error (g : LogInfo → Option String) (l : List LogInfo) :
    l.foldl (fun acc f =>
        match acc, g f with
        | none, some e => some e
        | acc, _ => acc) none = (l.filterMap g).head? := by
  induction l with
  | nil => rfl
  | cons x xs ih =>
    rw [List.foldl_cons, List.filterMap_cons]
    cases hgx : g x with
    | none => simpa [hgx] using ih
    | some e => simp [hgx, foldl_first_some]

/-- C7 (amended): a sweep attempts every candidate (its removal list is
the full strictly-old list, independent of which removals fail), and the
error it returns is the *first* — not the last — deletion error
encountered, in candidate order. -/
theorem sweep_returns_first_remove_error (parseTime : String → Except String Int)
    (tw : DateRotator) (nowLocal : Int) (entries : List DirEntry)
    (removeRes : String → Option String) (hage : 0 < tw.maxAge) :
    (cleanRunOnce parseTime tw nowLocal (Except.ok entries) removeRes).removed
      = (oldLogFiles parseTime tw.ext entries).filter
          (fun f => f.timestamp < nowLocal - dayNs * tw.maxAge) ∧
    (cleanRunOnce parseTime tw nowLocal (Except.ok entries) removeRes).err
      = (((cleanRunOnce parseTime tw nowLocal (Except.ok entries) removeRes).removed).filterMap
          (fun f => removeRes f.name)).head? := by
  have hne : tw.maxAge ≠ 0 := hage.ne'
  constructor
  · simp [cleanRunOnce, hne, hage]
  · simp only [cleanRunOnce, hne, if_false, hage, if_true]
    exact foldl_first_error (fun f => removeRes f.name) _

/-- Witness for the amended C7 on a two-candidate sweep with two failing
removals: both are attempted and the first error is returned. -/
theorem sweep_returns_first_remove_error_witness :
    (cleanRunOnce
        (fun s => if s = "a" then Except.ok 2 else if s = "b" then Except.ok 1 else Except.error "bad")
        { timeDiffToUTC := 0, lastTime := 0, period := 86400000000000, maxAge := 1,
          logPath := "logs", filename := "", outFile := none, ext := ".log" }
        86400000000010
        (Except.ok [{ name := "a.log", isDir := false, infoOk := true },
                    { name := "b.log", isDir := false, infoOk := true }])
        (fun s => if s = "a.log" then some "e1" else some "e2")).removed
      = (oldLogFiles
          (fun s => if s = "a" then Except.ok 2 else if s = "b" then Except.ok 1 else Except.error "bad")
          ".log"
          [{ name := "a.log", isDir := false, infoOk := true },
           { name := "b.log", isDir := false, infoOk := true }]).filter
          (fun f => f.timestamp < 86400000000010 - dayNs * 1) ∧
    (cleanRunOnce
        (fun s => if s = "a" then Except.ok 2 else if s = "b" then Except.ok 1 else Except.error "bad")
        { timeDiffToUTC := 0, lastTime := 0, period := 86400000000000, maxAge := 1,
          logPath := "logs", filename := "", outFile := none, ext := ".log" }
        86400000000010
        (Except.ok [{ name := "a.log", isDir := false, infoOk := true },
                    { name := "b.log", isDir := false, infoOk := true }])
        (fun s => if s = "a.log" then some "e1" else some "e2")).err
      = (((cleanRunOnce
          (fun s => if s = "a" then Except.ok 2 else if s = "b" then Except.ok 1 else Except.error "bad")
          { timeDiffToUTC := 0, lastTime := 0, period := 86400000000000, maxAge := 1,
            logPath := "logs", filename := "", outFile := none, ext := ".log" }
          86400000000010
          (Except.ok [{ name := "a.log", isDir := false, infoOk := true },
                      { name := "b.log", isDir := false, infoOk := true }])
          (fun s => if s = "a.log" then some "e1" else some "e2")).removed).filterMap
          (fun f => (fun s => if s = "a.log" then some "e1" else some "e2") f.name)).head? :=
  sweep_returns_first_remove_error
    (fun s => if s = "a" then Except.ok 2 else if s = "b" then Except.ok 1 else Except.error "bad")
    { timeDiffToUTC := 0, lastTime := 0, period := 86400000000000, maxAge := 1,
      logPath := "logs", filename := "", outFile := none, ext := ".log" }
    86400000000010
    [{ name := "a.log", isDir := false, infoOk := true },
     { name := "b.log", isDir := false, infoOk := true }]
    (fun s => if s = "a.log" then some "e1" else some "e2") (by decide)

/-- C7 counterexample: with two failing deletions (errors "e1" then "e2"
in candidate order) the sweep still attempts both, but returns the first
error "e1", not the last encountered error "e2". -/
theorem sweep_last_error_cex :
    (cleanRunOnce
        (fun s => if s = "a" then Except.ok 2 else if s = "b" then Except.ok 1 else Except.error "bad")
        { timeDiffToUTC := 0, lastTime := 0, period := 86400000000000, maxAge := 1,
          logPath := "logs", filename := "", outFile := none, ext := ".log" }
        86400000000010
        (Except.ok [{ name := "a.log", isDir := false, infoOk := true },
                    { name := "b.log", isDir := false, infoOk := true }])
        (fun s => if s = "a.log" then some "e1" else some "e2")).removed
      = [⟨2, "a.log"⟩, ⟨1, "b.log"⟩] ∧
    (fun s => if s = "a.log" then some "e1" else some "e2") "b.log" = some "e2" ∧
    (cleanRunOnce
        (fun s => if s = "a" then Except.ok 2 else if s = "b" then Except.ok 1 else Except.error "bad")
        { timeDiffToUTC := 0, lastTime := 0, period := 86400000000000, maxAge := 1,
          logPath := "logs", filename := "", outFile := none, ext := ".log" }
        86400000000010
        (Except.ok [{ name := "a.log", isDir := false, infoOk := true },
                    { name := "b.log", isDir := false, infoOk := true }])
        (fun s => if s = "a.log" then some "e1" else some "e2")).err = some "e1" ∧
    some "e1" ≠ some "e2" := by
  refine ⟨rfl, rfl, rfl, by decide⟩

/-- C8 (amended): horizon 0 is a complete no-op (no directory read, no
removal attempts, no error); a negative horizon attempts no removals but
still reads the directory and propagates a directory-read failure. -/
theorem sweep_disabled_horizon (parseTime : String → Except String Int)
    (tw : DateRotator) (nowLocal : Int) (readDirRes : Except String (List DirEntry))
    (removeRes : String → Option String) :
    (tw.maxAge = 0 →
      cleanRunOnce parseTime tw nowLocal readDirRes removeRes
        = { err := none, dirRead := false, removed := [] }) ∧
    (tw.maxAge < 0 →
      (cleanRunOnce parseTime tw nowLocal readDirRes removeRes).removed = [] ∧
      (cleanRunOnce parseTime tw nowLocal readDirRes removeRes).dirRead = true ∧
      (cleanRunOnce parseTime tw nowLocal readDirRes removeRes).err
        = (match readDirRes with
            | Except.error e => some ("can't read log file directory: " ++ e)
            | Except.ok _ => none)) := by
  constructor
  · intro h
    unfold cleanRunOnce
    simp [h]
  · intro h
    unfold cleanRunOnce
    cases readDirRes with
    | error e => simp [h.ne]
    | ok entries => simp [h.ne, not_lt_of_gt h, not_lt.mpr (le_of_lt h)]

/-- Witness for the amended C8: a zero horizon is fully inert; a negative
horizon with a failing directory read returns that read error. -/
theorem sweep_disabled_horizon_witness :
    (cleanRunOnce (fun _ => Except.error "bad")
        { timeDiffToUTC := 0, lastTime := 0, period := 86400000000000, maxAge := 0,
          logPath := "logs", filename := "", outFile := none, ext := ".log" }
        0 (Except.error "boom") (fun _ => none)
      = { err := none, dirRead := false, removed := [] }) ∧
    ((cleanRunOnce (fun _ => Except.error "bad")
        { timeDiffToUTC := 0, lastTime := 0, period := 86400000000000, maxAge := -1,
          logPath := "logs", filename := "", outFile := none, ext := ".log" }
        0 (Except.error "boom") (fun _ => none)).removed = [] ∧
     (cleanRunOnce (fun _ => Except.error "bad")
        { timeDiffToUTC := 0, lastTime := 0, period := 86400000000000, maxAge := -1,
          logPath := "logs", filename := "", outFile := none, ext := ".log" }
        0 (Except.error "boom") (fun _ => none)).dirRead = true ∧
     (cleanRunOnce (fun _ => Except.error "bad")
        { timeDiffToUTC := 0, lastTime := 0, period := 86400000000000, maxAge := -1,
          logPath := "logs", filename := "", outFile := none, ext := ".log" }
        0 (Except.error "boom") (fun _ => none)).err
       = (match (Except.error "boom" : Except String (List DirEntry)) with
           | Except.error e => some ("can't read log file directory: " ++ e)
           | Except.ok _ => none)) :=
  ⟨(sweep_disabled_horizon (fun _ => Except.error "bad")
      { timeDiffToUTC := 0, lastTime := 0, period := 86400000000000, maxAge := 0,
        logPath := "logs", filename := "", outFile := none, ext := ".log" }
      0 (Except.error "boom") (fun _ => none)).1 rfl,
   (sweep_disabled_horizon (fun _ => Except.error "bad")
      { timeDiffToUTC := 0, lastTime := 0, period := 86400000000000, maxAge := -1,
        logPath := "logs", filename := "", outFile := none, ext := ".log" }
      0 (Except.error "boom") (fun _ => none)).2 (by decide)⟩

/-- C8 counterexample: with horizon `-1` and a failing directory read the
sweep does perform directory work and returns an error, contradicting
"performs no directory work and returns no error" for horizon ≤ 0. -/
theorem negative_horizon_reads_directory_cex :
    (cleanRunOnce (fun _ => Except.error "bad")
        { timeDiffToUTC := 0, lastTime := 0, period := 86400000000000, maxAge := -1,
          logPath := "logs", filename := "", outFile := none, ext := ".log" }
        0 (Except.error "boom") (fun _ => none)).dirRead = true ∧
    (cleanRunOnce (fun _ => Except.error "bad")
        { timeDiffToUTC := 0, lastTime := 0, period := 86400000000000, maxAge := -1,
          logPath := "logs", filename := "", outFile := none, ext := ".log" }
        0 (Except.error "boom") (fun _ => none)).err
      = some "can't read log file directory: boom" := by
  constructor <;> rfl

end Glog
